import Mathlib

/-
Verification of the SimpleThirdPersonCamera controller.

The rig state and its operations are embedded from
src/SimpleThirdPersonCamera.py and
src/SimpleThirdPersonCameraPandaCollision.py.

Scalar quantities (distances, speeds, delta-times) are modelled as
rationals; scene-graph nodes are reduced to the scalar coordinates the
controller reads and writes (the Y offset of the camera holder and the
X offset of the camera base).
-/

namespace STPC

-- The side constants of SimpleThirdPersonCamera.py, lines 17-20.
def SIMPLE_THIRD_PERSON_CAMERA_SIDE_LEFT : ℚ := -1
def SIMPLE_THIRD_PERSON_CAMERA_SIDE_CENTRE : ℚ := 0
def SIMPLE_THIRD_PERSON_CAMERA_SIDE_CENTER : ℚ := 0
def SIMPLE_THIRD_PERSON_CAMERA_SIDE_RIGHT : ℚ := 1

/-- The observable state of a SimpleThirdPersonCamera rig: the tunable
fields stored by the constructor, plus the two scene-graph coordinates
the controller mutates (cameraHolder.getY and cameraBase.getX). -/
structure CameraRig where
  tilt : ℚ
  intendedDistance : ℚ
  shoulderSideDistance : ℚ
  height : ℚ
  adjustmentSpeed : ℚ
  sideSwitchSpeed : ℚ
  currentSide : ℚ
  cameraHolderY : ℚ
  cameraBaseX : ℚ
  deriving DecidableEq, Repr

/-- The constructor, SimpleThirdPersonCamera.__init__ (lines 24-69):
the camera base is a fresh child node of the owner (local X = 0), the
holder Y is set to -intendedDistance, and currentSide is initialised to
CENTRE and then overwritten via setCurrentSide(initialShoulderSide). -/
def mkRig (tilt intendedDistance shoulderSideDistance height
    adjustmentSpeed sideSwitchSpeed initialShoulderSide : ℚ) : CameraRig :=
  { tilt := tilt
    intendedDistance := intendedDistance
    shoulderSideDistance := shoulderSideDistance
    height := height
    adjustmentSpeed := adjustmentSpeed
    sideSwitchSpeed := sideSwitchSpeed
    currentSide := initialShoulderSide
    cameraHolderY := -intendedDistance
    cameraBaseX := 0 }

/-- SimpleThirdPersonCamera.setCurrentSide (lines 86-87): stores the
argument unconditionally, with no validation and no other effect. -/
def setCurrentSide (rig : CameraRig) (side : ℚ) : CameraRig :=
  { rig with currentSide := side }

/-- The distance value of the holder transform: the absolute value of
its backward (Y) offset, as read at line 92 of update. -/
def holderDistance (rig : CameraRig) : ℚ :=
  |rig.cameraHolderY|

/-- SimpleThirdPersonCamera.update (lines 90-133), with the result of
getNearestCollision passed in as collisionDistance. Follows the source
line by line: read currentDistance as abs of holder Y; target defaults
to intendedDistance and is lowered to the collision distance when that
is smaller; the blend factor adjustmentSpeed*dt is clamped from above
at 1 (only from above); the lateral offset snaps to its target when the
difference is below 0.001, else blends with sideSwitchSpeed*dt likewise
clamped only from above at 1. -/
def update (rig : CameraRig) (dt collisionDistance : ℚ) : CameraRig :=
  let currentDistance := |rig.cameraHolderY|
  let targetY := rig.intendedDistance
  let targetY := if targetY > collisionDistance then collisionDistance else targetY
  let yDiff := targetY - currentDistance
  let offsetVal := rig.adjustmentSpeed * dt
  let offsetVal := if offsetVal > 1 then 1 else offsetVal
  let offset := yDiff * offsetVal
  let newHolderY := -currentDistance - offset
  let currentSideDistance := rig.cameraBaseX
  let sideDiff := rig.shoulderSideDistance * rig.currentSide - currentSideDistance
  let newSideDistance :=
    if |sideDiff| < 1 / 1000 then
      rig.shoulderSideDistance * rig.currentSide
    else
      let offsetVal2 := rig.sideSwitchSpeed * dt
      let offsetVal2 := if offsetVal2 > 1 then 1 else offsetVal2
      currentSideDistance + sideDiff * offsetVal2
  { rig with cameraHolderY := newHolderY, cameraBaseX := newSideDistance }

/-- The base-class update as actually executed: the stub
getNearestCollision (lines 82-83) is a bare pass, so it returns None,
modelled as the none case. The comparison targetY > collisionDistance
at line 101 then compares a float with None, which raises a TypeError
in Python 3; with a real float result the call proceeds as update. -/
def updateBaseClass (rig : CameraRig) (dt : ℚ) (collisionDistance : Option ℚ) :
    Except String CameraRig :=
  match collisionDistance with
  | none => .error "TypeError: unorderable comparison of float and NoneType"
  | some c => .ok (update rig dt c)

/-- The blend factor as the spec phrases it: clamp(x, 0, 1). Written
from the words of the spec, for comparison against the code. -/
def clamp01 (x : ℚ) : ℚ := max 0 (min x 1)

-- Basic field-preservation facts about update, shared by later proofs.

theorem update_intendedDistance (rig : CameraRig) (dt c : ℚ) :
    (update rig dt c).intendedDistance = rig.intendedDistance := rfl

theorem update_adjustmentSpeed (rig : CameraRig) (dt c : ℚ) :
    (update rig dt c).adjustmentSpeed = rig.adjustmentSpeed := rfl

theorem update_sideSwitchSpeed (rig : CameraRig) (dt c : ℚ) :
    (update rig dt c).sideSwitchSpeed = rig.sideSwitchSpeed := rfl

theorem update_currentSide (rig : CameraRig) (dt c : ℚ) :
    (update rig dt c).currentSide = rig.currentSide := rfl

theorem update_cameraHolderY (rig : CameraRig) (dt c : ℚ) :
    (update rig dt c).cameraHolderY =
      -|rig.cameraHolderY| -
        (min rig.intendedDistance c - |rig.cameraHolderY|) *
          (if rig.adjustmentSpeed * dt > 1 then 1 else rig.adjustmentSpeed * dt) := by
  show (-|rig.cameraHolderY| -
      ((if rig.intendedDistance > c then c else rig.intendedDistance) - |rig.cameraHolderY|) *
        (if rig.adjustmentSpeed * dt > 1 then 1 else rig.adjustmentSpeed * dt)) = _
  rcases lt_or_ge c rig.intendedDistance with h | h
  · rw [if_pos h, min_eq_right h.le]
  · rw [if_neg (not_lt.mpr h), min_eq_left h]

/-- C1: for every rig state, every dt ≥ 0 (with the nonnegative
adjustmentSpeed the data model prescribes) and every probe result,
update writes the holder backward offset to
-(currentDistance + (min(intendedDistance, obstacleDistance) - currentDistance)
  * clamp(adjustmentSpeed * dt, 0, 1)),
where currentDistance is the absolute value of the holder offset read
at the start of the call. -/
theorem update_holder_offset_formula (rig : CameraRig) (dt c : ℚ)
    (hA : 0 ≤ rig.adjustmentSpeed) (hdt : 0 ≤ dt) :
    (update rig dt c).cameraHolderY =
      -(holderDistance rig +
        (min rig.intendedDistance c - holderDistance rig) *
          clamp01 (rig.adjustmentSpeed * dt)) := by
  rw [update_cameraHolderY, holderDistance, clamp01]
  have hx : 0 ≤ rig.adjustmentSpeed * dt := mul_nonneg hA hdt
  rcases lt_or_ge (1 : ℚ) (rig.adjustmentSpeed * dt) with h | h
  · rw [if_pos h, min_eq_right h.le, max_eq_right (by norm_num : (0:ℚ) ≤ 1)]
    ring
  · rw [if_neg (not_lt.mpr h), min_eq_left h, max_eq_right hx]
    ring

/-- Witness for C1 at a concrete rig, dt = 1/2, probe result 3. -/
theorem update_holder_offset_formula_witness :
    (update (mkRig 10 5 2 1 1 4 0) (1/2) 3).cameraHolderY =
      -(holderDistance (mkRig 10 5 2 1 1 4 0) +
        (min (mkRig 10 5 2 1 1 4 0).intendedDistance 3 -
            holderDistance (mkRig 10 5 2 1 1 4 0)) *
          clamp01 ((mkRig 10 5 2 1 1 4 0).adjustmentSpeed * (1/2))) :=
  update_holder_offset_formula (mkRig 10 5 2 1 1 4 0) (1/2) 3
    (by norm_num [mkRig]) (by norm_num)

/-- C2: a base-class rig (no probe override) does NOT complete update:
the stub getNearestCollision returns None, and the comparison
targetY > collisionDistance at line 101 raises a TypeError. The spec
says a probe-less rig degrades to always-unobstructed; the code raises
instead, contradicting its own stub documentation at lines 80-81 which
says the method should return self.intendedDistance. -/
theorem updateBaseClass_raises (rig : CameraRig) (dt : ℚ) :
    updateBaseClass rig dt none =
      .error "TypeError: unorderable comparison of float and NoneType" := rfl

-- Single-step bounds on the holder distance, used for the invariant C3.

theorem holderDistance_update_mem (rig : CameraRig) (dt c : ℚ)
    (hA : 0 ≤ rig.adjustmentSpeed) (hdt : 0 ≤ dt)
    (hc0 : 0 ≤ c) (hcD : c ≤ rig.intendedDistance)
    (hcur : holderDistance rig ≤ rig.intendedDistance) :
    0 ≤ holderDistance (update rig dt c) ∧
      holderDistance (update rig dt c) ≤ rig.intendedDistance := by
  have hcur0 : 0 ≤ holderDistance rig := abs_nonneg _
  rw [holderDistance] at hcur hcur0 ⊢
  rw [update_cameraHolderY, min_eq_right hcD]
  set cur := |rig.cameraHolderY| with hcurdef
  set b := if rig.adjustmentSpeed * dt > 1 then 1 else rig.adjustmentSpeed * dt with hb
  have hb0 : 0 ≤ b := by
    rw [hb]; split
    · norm_num
    · exact mul_nonneg hA hdt
  have hb1 : b ≤ 1 := by
    rw [hb]; split
    · norm_num
    next h => exact le_of_not_lt h
  have hlo : 0 ≤ cur + (c - cur) * b := by
    nlinarith [mul_nonneg (sub_nonneg.mpr hb1) hcur0, mul_nonneg hb0 hc0]
  have hhi : cur + (c - cur) * b ≤ rig.intendedDistance := by
    nlinarith [mul_nonneg (sub_nonneg.mpr hb1) (sub_nonneg.mpr hcur),
      mul_nonneg hb0 (sub_nonneg.mpr hcD)]
  have heq : -cur - (c - cur) * b = -(cur + (c - cur) * b) := by ring
  rw [heq, abs_neg, abs_of_nonneg hlo]
  exact ⟨hlo, hhi⟩

/-- Running a sequence of update calls, each step a (dt, probe result)
pair. -/
def runUpdates (rig : CameraRig) (steps : List (ℚ × ℚ)) : CameraRig :=
  steps.foldl (fun r p => update r p.1 p.2) rig

theorem runUpdates_holderDistance_mem (steps : List (ℚ × ℚ)) (rig : CameraRig)
    (hA : 0 ≤ rig.adjustmentSpeed)
    (hcur : holderDistance rig ≤ rig.intendedDistance)
    (hsteps : ∀ p ∈ steps, 0 ≤ p.1 ∧ 0 ≤ p.2 ∧ p.2 ≤ rig.intendedDistance) :
    0 ≤ holderDistance (runUpdates rig steps) ∧
      holderDistance (runUpdates rig steps) ≤ rig.intendedDistance := by
  induction steps generalizing rig with
  | nil => exact ⟨abs_nonneg _, hcur⟩
  | cons p ps ih =>
    obtain ⟨hdt, hc0, hcD⟩ := hsteps p (List.mem_cons_self p ps)
    have hstep := holderDistance_update_mem rig p.1 p.2 hA hdt hc0 hcD hcur
    have hres := ih (update rig p.1 p.2)
      (by rw [update_adjustmentSpeed]; exact hA)
      (by rw [update_intendedDistance]; exact hstep.2)
      (by intro q hq
          rw [update_intendedDistance]
          exact hsteps q (List.mem_cons_of_mem p hq))
    rw [runUpdates] at hres ⊢
    rw [List.foldl_cons]
    rw [update_intendedDistance] at hres
    exact hres

/-- C3: with a nonnegative adjustmentSpeed and dt ≥ 0, (a) a single
update from a state whose holder distance is in [0, intendedDistance],
with a probe result in [0, intendedDistance], leaves the holder
distance in [0, intendedDistance]; and (b) from the constructed state
(distance = intendedDistance) the holder distance is in
[0, intendedDistance] after any sequence of such update calls. -/
theorem holderDistance_invariant :
    (∀ (rig : CameraRig) (dt c : ℚ),
      0 ≤ rig.adjustmentSpeed → 0 ≤ dt →
      0 ≤ c → c ≤ rig.intendedDistance →
      holderDistance rig ≤ rig.intendedDistance →
      0 ≤ holderDistance (update rig dt c) ∧
        holderDistance (update rig dt c) ≤ rig.intendedDistance) ∧
    (∀ (tilt D sh h aS sS side : ℚ) (steps : List (ℚ × ℚ)),
      0 ≤ D → 0 ≤ aS →
      (∀ p ∈ steps, 0 ≤ p.1 ∧ 0 ≤ p.2 ∧ p.2 ≤ D) →
      0 ≤ holderDistance (runUpdates (mkRig tilt D sh h aS sS side) steps) ∧
        holderDistance (runUpdates (mkRig tilt D sh h aS sS side) steps) ≤ D) := by
  constructor
  · exact fun rig dt c hA hdt hc0 hcD hcur =>
      holderDistance_update_mem rig dt c hA hdt hc0 hcD hcur
  · intro tilt D sh h aS sS side steps hD hA hsteps
    exact runUpdates_holderDistance_mem steps (mkRig tilt D sh h aS sS side)
      hA (by simp [mkRig, holderDistance, abs_neg, abs_of_nonneg hD]) hsteps

/-- Witness for C3: a single update at a concrete in-range state, and a
two-step run from the constructed state. -/
theorem holderDistance_invariant_witness :
    (0 ≤ holderDistance (update (mkRig 10 5 2 1 1 4 0) (1/2) 3) ∧
      holderDistance (update (mkRig 10 5 2 1 1 4 0) (1/2) 3) ≤
        (mkRig 10 5 2 1 1 4 0).intendedDistance) ∧
    (0 ≤ holderDistance (runUpdates (mkRig 10 5 2 1 1 4 0) [(1/2, 3), (2, 5)]) ∧
      holderDistance (runUpdates (mkRig 10 5 2 1 1 4 0) [(1/2, 3), (2, 5)]) ≤ 5) :=
  ⟨holderDistance_invariant.1 (mkRig 10 5 2 1 1 4 0) (1/2) 3
      (by norm_num [mkRig]) (by norm_num) (by norm_num)
      (by norm_num [mkRig]) (by norm_num [mkRig, holderDistance]),
    holderDistance_invariant.2 10 5 2 1 1 4 0 [(1/2, 3), (2, 5)]
      (by norm_num) (by norm_num)
      (by intro p hp
          simp only [List.mem_cons, List.not_mem_nil, or_false] at hp
          rcases hp with rfl | rfl <;> norm_num)⟩

theorem update_cameraBaseX (rig : CameraRig) (dt c : ℚ) :
    (update rig dt c).cameraBaseX =
      if |rig.shoulderSideDistance * rig.currentSide - rig.cameraBaseX| < 1 / 1000 then
        rig.shoulderSideDistance * rig.currentSide
      else
        rig.cameraBaseX +
          (rig.shoulderSideDistance * rig.currentSide - rig.cameraBaseX) *
            (if rig.sideSwitchSpeed * dt > 1 then 1 else rig.sideSwitchSpeed * dt) := rfl

/-- C4: with positive adjustmentSpeed and dt, nonnegative probe result
and intendedDistance, a single update moves the holder distance
strictly toward the target min(intendedDistance, probe) whenever it
differs from it, never crosses to the far side of the target, and
stays put when already at the target. Applied at every tick this gives
monotone, overshoot-free convergence for any size of
adjustmentSpeed * dt, including values at or above 1. -/
theorem update_monotone_toward_target (rig : CameraRig) (dt c : ℚ)
    (hA : 0 < rig.adjustmentSpeed) (hdt : 0 < dt)
    (hc : 0 ≤ c) (hD : 0 ≤ rig.intendedDistance) :
    (holderDistance rig ≠ min rig.intendedDistance c →
      |holderDistance (update rig dt c) - min rig.intendedDistance c| <
        |holderDistance rig - min rig.intendedDistance c| ∧
      0 ≤ (holderDistance (update rig dt c) - min rig.intendedDistance c) *
            (holderDistance rig - min rig.intendedDistance c)) ∧
    (holderDistance rig = min rig.intendedDistance c →
      holderDistance (update rig dt c) = min rig.intendedDistance c) := by
  have ht0 : 0 ≤ min rig.intendedDistance c := le_min hD hc
  have hcur0 : 0 ≤ holderDistance rig := abs_nonneg _
  have hb0 : (0:ℚ) <
      (if rig.adjustmentSpeed * dt > 1 then 1 else rig.adjustmentSpeed * dt) := by
    split
    · norm_num
    · exact mul_pos hA hdt
  have hb1 : (if rig.adjustmentSpeed * dt > 1 then 1 else rig.adjustmentSpeed * dt) ≤ 1 := by
    split
    · norm_num
    next h => exact le_of_not_lt h
  generalize hbg : (if rig.adjustmentSpeed * dt > 1 then 1 else rig.adjustmentSpeed * dt) = b
    at hb0 hb1
  have hnn : 0 ≤ holderDistance rig +
      (min rig.intendedDistance c - holderDistance rig) * b := by
    nlinarith [mul_nonneg (sub_nonneg.mpr hb1) hcur0, mul_nonneg hb0.le ht0]
  have hnew : holderDistance (update rig dt c) =
      holderDistance rig + (min rig.intendedDistance c - holderDistance rig) * b := by
    rw [holderDistance, update_cameraHolderY, hbg]
    rw [holderDistance] at hnn ⊢
    rw [show -|rig.cameraHolderY| -
          (min rig.intendedDistance c - |rig.cameraHolderY|) * b =
        -(|rig.cameraHolderY| +
          (min rig.intendedDistance c - |rig.cameraHolderY|) * b) from by ring]
    rw [abs_neg, abs_of_nonneg hnn]
  constructor
  · intro hne
    have habs : 0 < |holderDistance rig - min rig.intendedDistance c| :=
      abs_pos.mpr (sub_ne_zero.mpr hne)
    constructor
    · rw [hnew,
        show holderDistance rig +
            (min rig.intendedDistance c - holderDistance rig) * b -
            min rig.intendedDistance c =
          (holderDistance rig - min rig.intendedDistance c) * (1 - b) from by ring,
        abs_mul, abs_of_nonneg (by linarith : (0:ℚ) ≤ 1 - b)]
      nlinarith [mul_pos habs hb0]
    · rw [hnew]
      nlinarith [mul_nonneg (by linarith : (0:ℚ) ≤ 1 - b)
        (sq_nonneg (holderDistance rig - min rig.intendedDistance c))]
  · intro hEq
    rw [hnew, hEq]
    ring

/-- Witness for C4 at a concrete rig away from the target, dt = 1/2,
probe result 3. -/
theorem update_monotone_toward_target_witness :
    ((holderDistance (mkRig 10 5 2 1 1 4 0) ≠ min (mkRig 10 5 2 1 1 4 0).intendedDistance 3 →
      |holderDistance (update (mkRig 10 5 2 1 1 4 0) (1/2) 3) -
          min (mkRig 10 5 2 1 1 4 0).intendedDistance 3| <
        |holderDistance (mkRig 10 5 2 1 1 4 0) -
          min (mkRig 10 5 2 1 1 4 0).intendedDistance 3| ∧
      0 ≤ (holderDistance (update (mkRig 10 5 2 1 1 4 0) (1/2) 3) -
              min (mkRig 10 5 2 1 1 4 0).intendedDistance 3) *
            (holderDistance (mkRig 10 5 2 1 1 4 0) -
              min (mkRig 10 5 2 1 1 4 0).intendedDistance 3)) ∧
    (holderDistance (mkRig 10 5 2 1 1 4 0) = min (mkRig 10 5 2 1 1 4 0).intendedDistance 3 →
      holderDistance (update (mkRig 10 5 2 1 1 4 0) (1/2) 3) =
        min (mkRig 10 5 2 1 1 4 0).intendedDistance 3)) :=
  update_monotone_toward_target (mkRig 10 5 2 1 1 4 0) (1/2) 3
    (by norm_num [mkRig]) (by norm_num) (by norm_num) (by norm_num [mkRig])

/-- C5: in every update call, when the lateral difference is below the
0.001 threshold the anchor lateral offset is set exactly to
shoulderSideDistance * currentSide, for every dt and sideSwitchSpeed;
otherwise (for dt ≥ 0 and nonnegative sideSwitchSpeed, as the data
model prescribes) it is set to
currentLateral + (targetLateral - currentLateral) * clamp(sideSwitchSpeed * dt, 0, 1). -/
theorem update_lateral_rule (rig : CameraRig) (dt c : ℚ) :
    (|rig.shoulderSideDistance * rig.currentSide - rig.cameraBaseX| < 1 / 1000 →
      (update rig dt c).cameraBaseX = rig.shoulderSideDistance * rig.currentSide) ∧
    (0 ≤ rig.sideSwitchSpeed → 0 ≤ dt →
      ¬ |rig.shoulderSideDistance * rig.currentSide - rig.cameraBaseX| < 1 / 1000 →
      (update rig dt c).cameraBaseX =
        rig.cameraBaseX +
          (rig.shoulderSideDistance * rig.currentSide - rig.cameraBaseX) *
            clamp01 (rig.sideSwitchSpeed * dt)) := by
  constructor
  · intro hsnap
    rw [update_cameraBaseX, if_pos hsnap]
  · intro hS hdt hfar
    rw [update_cameraBaseX, if_neg hfar, clamp01]
    have hx : 0 ≤ rig.sideSwitchSpeed * dt := mul_nonneg hS hdt
    rcases lt_or_ge (1 : ℚ) (rig.sideSwitchSpeed * dt) with h | h
    · rw [if_pos h, min_eq_right h.le, max_eq_right (by norm_num : (0:ℚ) ≤ 1)]
    · rw [if_neg (not_lt.mpr h), min_eq_left h, max_eq_right hx]

/-- Witness for C5: the snap branch at a rig whose lateral offset is
within the threshold, and the blend branch at a rig far from its
lateral target. -/
theorem update_lateral_rule_witness :
    (update (mkRig 10 5 2 1 1 4 1) (1/2) 3).cameraBaseX =
        (mkRig 10 5 2 1 1 4 1).cameraBaseX +
          ((mkRig 10 5 2 1 1 4 1).shoulderSideDistance *
              (mkRig 10 5 2 1 1 4 1).currentSide -
            (mkRig 10 5 2 1 1 4 1).cameraBaseX) *
            clamp01 ((mkRig 10 5 2 1 1 4 1).sideSwitchSpeed * (1/2)) :=
  (update_lateral_rule (mkRig 10 5 2 1 1 4 1) (1/2) 3).2
    (by norm_num [mkRig]) (by norm_num) (by norm_num [mkRig])

namespace PandaCollision

/-- Squared Euclidean length of the difference of two points with
rational coordinates. -/
def diffSq (a b : ℚ × ℚ × ℚ) : ℚ :=
  (a.1 - b.1) ^ 2 + (a.2.1 - b.2.1) ^ 2 + (a.2.2 - b.2.2) ^ 2

/-- The length of the difference vector computed at line 85 of
SimpleThirdPersonCameraPandaCollision.py (diff.length()). -/
noncomputable def diffLength (a b : ℚ × ℚ × ℚ) : ℝ :=
  Real.sqrt (diffSq a b)

/-- SimpleThirdPersonCameraPandaCollision.getNearestCollision
(lines 66-88): the collision traversal is modelled by passing in the
list of recorded intersection surface points (scene coordinates);
basePos is cameraBase.getPos(sceneRoot). sortEntries followed by
getEntry(0) is modelled as selecting the entry nearest the base, so on
a nonempty queue the result is the minimum of the distances from the
base to the surface points; on an empty queue it is intendedDistance. -/
noncomputable def getNearestCollision (basePos : ℚ × ℚ × ℚ) (intendedDistance : ℚ)
    (entries : List (ℚ × ℚ × ℚ)) : ℝ :=
  match entries with
  | [] => (intendedDistance : ℝ)
  | p :: ps => (ps.map (diffLength basePos)).foldl min (diffLength basePos p)

theorem foldl_min_le (l : List ℝ) (a : ℝ) :
    l.foldl min a ≤ a ∧ ∀ x ∈ l, l.foldl min a ≤ x := by
  induction l generalizing a with
  | nil => simp
  | cons y ys ih =>
    simp only [List.foldl_cons]
    obtain ⟨h1, h2⟩ := ih (min a y)
    refine ⟨le_trans h1 (min_le_left a y), ?_⟩
    intro x hx
    rcases List.mem_cons.mp hx with rfl | hx
    · exact le_trans h1 (min_le_right a x)
    · exact h2 x hx

theorem foldl_min_mem (l : List ℝ) (a : ℝ) :
    l.foldl min a = a ∨ l.foldl min a ∈ l := by
  induction l generalizing a with
  | nil => simp
  | cons y ys ih =>
    simp only [List.foldl_cons]
    rcases ih (min a y) with h | h
    · rcases le_total a y with hay | hay
      · left
        rw [h, min_eq_left hay]
      · right
        rw [h, min_eq_right hay]
        exact List.mem_cons_self _ _
    · right
      exact List.mem_cons_of_mem _ h

/-- C6 counterexample: intendedDistance 4, colliderRadius 3, camera
base at the origin, and one recorded intersection at (-3, -4, 0) (the
far endpoint of the first probe segment, which runs from (-3, -3, 0)
to (-3, -4, 0)). The returned distance is 5, which exceeds
intendedDistance = 4, refuting the claim that the probe result is at
most intendedDistance. -/
theorem getNearestCollision_can_exceed_intendedDistance :
    ((4 : ℚ) : ℝ) < getNearestCollision (0, 0, 0) 4 [(-3, -4, 0)] := by
  have h : getNearestCollision (0, 0, 0) 4 [(-3, -4, 0)] = 5 := by
    show (List.map (diffLength (0, 0, 0)) []).foldl min
        (diffLength (0, 0, 0) (-3, -4, 0)) = 5
    simp only [List.map_nil, List.foldl_nil]
    rw [diffLength, show diffSq (0, 0, 0) (-3, -4, 0) = 25 from by norm_num [diffSq],
      show ((25 : ℚ) : ℝ) = (5 : ℝ) ^ 2 from by norm_num]
    exact Real.sqrt_sq (by norm_num)
  rw [h]
  norm_num

/-- C6 amended: for nonnegative intendedDistance, getNearestCollision
returns a nonnegative value; exactly intendedDistance when the
intersection set is empty; and otherwise the minimum over all recorded
intersections of the distance from the base position to the surface
point (a lower bound attained by some recorded intersection). The
result need not be at most intendedDistance. -/
theorem getNearestCollision_spec (basePos : ℚ × ℚ × ℚ) (D : ℚ)
    (entries : List (ℚ × ℚ × ℚ)) (hD : 0 ≤ D) :
    0 ≤ getNearestCollision basePos D entries ∧
    (entries = [] → getNearestCollision basePos D entries = (D : ℝ)) ∧
    (∀ p ∈ entries, getNearestCollision basePos D entries ≤ diffLength basePos p) ∧
    (entries ≠ [] →
      ∃ p ∈ entries, getNearestCollision basePos D entries = diffLength basePos p) := by
  cases entries with
  | nil =>
    have h0 : getNearestCollision basePos D [] = (D : ℝ) := rfl
    refine ⟨by rw [h0]; exact_mod_cast hD, fun _ => rfl, by simp, fun h => absurd rfl h⟩
  | cons p ps =>
    have hval : getNearestCollision basePos D (p :: ps) =
        (ps.map (diffLength basePos)).foldl min (diffLength basePos p) := rfl
    have hex : ∃ q ∈ p :: ps,
        getNearestCollision basePos D (p :: ps) = diffLength basePos q := by
      rw [hval]
      rcases foldl_min_mem (ps.map (diffLength basePos)) (diffLength basePos p) with h | h
      · exact ⟨p, List.mem_cons_self _ _, h⟩
      · obtain ⟨q, hq, hqe⟩ := List.mem_map.mp h
        exact ⟨q, List.mem_cons_of_mem _ hq, hqe.symm⟩
    refine ⟨?_, by simp, ?_, fun _ => hex⟩
    · obtain ⟨q, _, hqe⟩ := hex
      rw [hqe]
      exact Real.sqrt_nonneg _
    · intro x hx
      rw [hval]
      rcases List.mem_cons.mp hx with rfl | hx
      · exact (foldl_min_le (ps.map (diffLength basePos)) (diffLength basePos x)).1
      · exact (foldl_min_le (ps.map (diffLength basePos)) (diffLength basePos p)).2
          (diffLength basePos x) (List.mem_map_of_mem _ hx)

/-- Witness for the amended C6 at the concrete one-entry queue of the
counterexample. -/
theorem getNearestCollision_spec_witness :
    0 ≤ getNearestCollision (0, 0, 0) 4 [(-3, -4, 0)] ∧
    (([(-3, -4, 0)] : List (ℚ × ℚ × ℚ)) = [] →
      getNearestCollision (0, 0, 0) 4 [(-3, -4, 0)] = ((4 : ℚ) : ℝ)) ∧
    (∀ p ∈ ([(-3, -4, 0)] : List (ℚ × ℚ × ℚ)),
      getNearestCollision (0, 0, 0) 4 [(-3, -4, 0)] ≤ diffLength (0, 0, 0) p) ∧
    (([(-3, -4, 0)] : List (ℚ × ℚ × ℚ)) ≠ [] →
      ∃ p ∈ ([(-3, -4, 0)] : List (ℚ × ℚ × ℚ)),
        getNearestCollision (0, 0, 0) 4 [(-3, -4, 0)] = diffLength (0, 0, 0) p) :=
  getNearestCollision_spec (0, 0, 0) 4 [(-3, -4, 0)] (by norm_num)

end PandaCollision

-- Lifecycle model for cleanup (C7). Each reference the controller
-- holds is tracked as present (true) or nulled (false); node and
-- traverser operations are recorded as effects.

/-- A released-resource effect: detaching a node (without destroying
it), removing a collider from the traverser, or removing (destroying)
a node. -/
inductive NodeEffect where
  | detach (target : String)
  | removeFromTraverser (target : String)
  | remove (target : String)
  deriving DecidableEq, Repr

/-- Which of the references touched by cleanup are still set (true) as
opposed to nulled (false). -/
structure CleanupState where
  camera : Bool
  ownerNodePath : Bool
  collider : Bool
  colliderNode : Bool
  traverser : Bool
  collisionQueue : Bool
  cameraBase : Bool
  deriving DecidableEq, Repr

/-- The state right after construction of the Panda-collision rig:
every reference set. -/
def initialCleanupState : CleanupState :=
  { camera := true, ownerNodePath := true, collider := true, colliderNode := true
    traverser := true, collisionQueue := true, cameraBase := true }

/-- SimpleThirdPersonCameraPandaCollision.cleanupCollision
(lines 91-99): if collider is set, remove it from the traverser (an
attribute access on traverser that raises when traverser is already
None), remove its node, and null collider and colliderNode; then null
traverser and collisionQueue unconditionally. -/
def cleanupCollision (s : CleanupState) : Except String (CleanupState × List NodeEffect) :=
  if s.collider then
    if s.traverser then
      .ok ({ s with collider := false, colliderNode := false, traverser := false, collisionQueue := false },
        [.removeFromTraverser "collider", .remove "collider"])
    else
      .error "AttributeError: NoneType object has no removeCollider"
  else
    .ok ({ s with traverser := false, collisionQueue := false }, [])

/-- SimpleThirdPersonCamera.cleanup (lines 136-154), with the
collision teardown dispatched to the Panda subclass: detach (never
remove) the camera if set and null it; null the owner reference if
set; run cleanupCollision; remove the camera base node if set and null
it. -/
def cleanup (s : CleanupState) : Except String (CleanupState × List NodeEffect) :=
  let step1 := if s.camera then
      (({ s with camera := false } : CleanupState), [NodeEffect.detach "camera"])
    else (s, ([] : List NodeEffect))
  let s2 := if step1.1.ownerNodePath then { step1.1 with ownerNodePath := false } else step1.1
  match cleanupCollision s2 with
  | .error e => .error e
  | .ok (s3, effs3) =>
    let step4 := if s3.cameraBase then
        (({ s3 with cameraBase := false } : CleanupState), [NodeEffect.remove "cameraBase"])
      else (s3, ([] : List NodeEffect))
    .ok (step4.1, step1.2 ++ effs3 ++ step4.2)

/-- The fully-released state. -/
def clearedCleanupState : CleanupState :=
  { camera := false, ownerNodePath := false, collider := false, colliderNode := false
    traverser := false, collisionQueue := false, cameraBase := false }

/-- C7: cleanup is idempotent-by-guard. (a) After any completed
cleanup call, a further cleanup call succeeds, changes nothing and
performs no release effect, so no resource is released twice. (b) The
first call on the freshly constructed state succeeds, detaches the
camera and never removes (destroys) it. -/
theorem cleanup_idempotent :
    (∀ (s s2 : CleanupState) (effs : List NodeEffect),
      cleanup s = .ok (s2, effs) → cleanup s2 = .ok (s2, [])) ∧
    (∃ s2 effs, cleanup initialCleanupState = .ok (s2, effs) ∧
      NodeEffect.detach "camera" ∈ effs ∧ NodeEffect.remove "camera" ∉ effs) := by
  constructor
  · intro s s2 effs h
    have H : ∃ b, s2 = CleanupState.mk false false false b false false false := by
      rcases s with ⟨c, o, col, coln, tr, q, cb⟩
      cases c <;> cases o <;> cases col <;> cases tr <;> cases q <;> cases cb
      all_goals try exact Except.noConfusion h
      all_goals
        injection h with h2
        injection h2 with h3 h4
        exact ⟨_, h3.symm⟩
    obtain ⟨b, rfl⟩ := H
    cases b <;> rfl
  · exact ⟨clearedCleanupState,
      [NodeEffect.detach "camera", NodeEffect.removeFromTraverser "collider",
        NodeEffect.remove "collider", NodeEffect.remove "cameraBase"],
      rfl, by simp, by simp⟩

/-- Witness for C7 part (a): after the concrete first cleanup, the
second call is a successful no-op. -/
theorem cleanup_idempotent_witness :
    cleanup clearedCleanupState = .ok (clearedCleanupState, []) :=
  cleanup_idempotent.1 initialCleanupState clearedCleanupState
    [NodeEffect.detach "camera", NodeEffect.removeFromTraverser "collider",
      NodeEffect.remove "collider", NodeEffect.remove "cameraBase"] rfl

-- Side enumeration (C8, C9).

/-- Membership in the three enumerated side values. -/
def isEnumeratedSide (side : ℚ) : Prop :=
  side = SIMPLE_THIRD_PERSON_CAMERA_SIDE_LEFT ∨
  side = SIMPLE_THIRD_PERSON_CAMERA_SIDE_CENTRE ∨
  side = SIMPLE_THIRD_PERSON_CAMERA_SIDE_RIGHT

/-- An externally driven call on the rig: a setCurrentSide call or an
update tick with its probe result. -/
inductive RigOp where
  | setSide (side : ℚ)
  | tick (dt : ℚ) (collisionDistance : ℚ)

def applyOp (rig : CameraRig) (op : RigOp) : CameraRig :=
  match op with
  | .setSide s => setCurrentSide rig s
  | .tick dt c => update rig dt c

def runOps (rig : CameraRig) (ops : List RigOp) : CameraRig :=
  ops.foldl applyOp rig

/-- C8 counterexample: setCurrentSide performs no validation, so
passing the non-enumerated value 2 stores 2, and currentSide leaves
the three-value set \x7b-1, 0, 1\x7d. -/
theorem setCurrentSide_escapes_enumeration :
    ¬ isEnumeratedSide ((setCurrentSide (mkRig 10 5 2 1 1 4 0) 2).currentSide) := by
  norm_num [isEnumeratedSide, setCurrentSide, mkRig,
    SIMPLE_THIRD_PERSON_CAMERA_SIDE_LEFT, SIMPLE_THIRD_PERSON_CAMERA_SIDE_CENTRE,
    SIMPLE_THIRD_PERSON_CAMERA_SIDE_RIGHT]

theorem runOps_currentSide_enumerated (ops : List RigOp) (rig : CameraRig)
    (hcur : isEnumeratedSide rig.currentSide)
    (hops : ∀ op ∈ ops, ∀ s, op = RigOp.setSide s → isEnumeratedSide s) :
    isEnumeratedSide (runOps rig ops).currentSide := by
  induction ops generalizing rig with
  | nil => exact hcur
  | cons op ops ih =>
    have hstep : isEnumeratedSide (applyOp rig op).currentSide := by
      cases op with
      | setSide s => exact hops _ (List.mem_cons_self _ _) s rfl
      | tick dt c =>
        show isEnumeratedSide (update rig dt c).currentSide
        rw [update_currentSide]
        exact hcur
    exact ih (applyOp rig op) hstep
      (fun op2 h2 => hops op2 (List.mem_cons_of_mem _ h2))

/-- C8 amended: currentSide stays within the three enumerated values
after construction and any sequence of setCurrentSide and update
calls, provided the initial side and every argument passed to
setCurrentSide are themselves enumerated values (the code itself never
validates the argument). -/
theorem currentSide_enumerated_of_valid_calls
    (tilt D sh h aS sS initSide : ℚ) (ops : List RigOp)
    (hinit : isEnumeratedSide initSide)
    (hops : ∀ op ∈ ops, ∀ s, op = RigOp.setSide s → isEnumeratedSide s) :
    isEnumeratedSide ((runOps (mkRig tilt D sh h aS sS initSide) ops).currentSide) :=
  runOps_currentSide_enumerated ops (mkRig tilt D sh h aS sS initSide) hinit hops

/-- Witness for the amended C8 on a concrete three-call history. -/
theorem currentSide_enumerated_of_valid_calls_witness :
    isEnumeratedSide ((runOps (mkRig 10 5 2 1 1 4 0)
      [RigOp.setSide 1, RigOp.tick (1/2) 3, RigOp.setSide (-1)]).currentSide) :=
  currentSide_enumerated_of_valid_calls 10 5 2 1 1 4 0
    [RigOp.setSide 1, RigOp.tick (1/2) 3, RigOp.setSide (-1)]
    (Or.inr (Or.inl rfl))
    (by intro op hop s hs
        simp only [List.mem_cons, List.not_mem_nil, or_false] at hop
        rcases hop with rfl | rfl | rfl
        · injection hs with hv
          subst hv
          exact Or.inr (Or.inr rfl)
        · exact absurd hs (by simp)
        · injection hs with hv
          subst hv
          exact Or.inl rfl)

/-- C9: setCurrentSide stores the given side and changes nothing else:
every other field of the rig state, including the holder distance
offset and the anchor lateral offset, is unchanged at call time. -/
theorem setCurrentSide_only_sets_side (rig : CameraRig) (side : ℚ) :
    (setCurrentSide rig side).currentSide = side ∧
    (setCurrentSide rig side).cameraHolderY = rig.cameraHolderY ∧
    (setCurrentSide rig side).cameraBaseX = rig.cameraBaseX ∧
    (setCurrentSide rig side).tilt = rig.tilt ∧
    (setCurrentSide rig side).intendedDistance = rig.intendedDistance ∧
    (setCurrentSide rig side).shoulderSideDistance = rig.shoulderSideDistance ∧
    (setCurrentSide rig side).height = rig.height ∧
    (setCurrentSide rig side).adjustmentSpeed = rig.adjustmentSpeed ∧
    (setCurrentSide rig side).sideSwitchSpeed = rig.sideSwitchSpeed :=
  ⟨rfl, rfl, rfl, rfl, rfl, rfl, rfl, rfl, rfl⟩

/-- C10: the blend factors are clamped only from above at 1, never
from below at 0. For dt < 0 (with positive speeds): (a) the holder is
written with the raw negative blend adjustmentSpeed * dt; (b) when the
current distance differs from the target, the written (signed)
distance moves strictly away from the target; (c) when the 0.001 snap
does not trigger, the lateral offset is written with the raw negative
blend sideSwitchSpeed * dt and moves strictly away from its target;
(d) concretely, from holder distance 4 with intendedDistance 5 and
probe result 5, dt = -10 drives the holder distance to 6, outside
[0, intendedDistance]. -/
theorem negative_dt_moves_away (rig : CameraRig) (dt c : ℚ)
    (hdt : dt < 0) (hA : 0 < rig.adjustmentSpeed) (hS : 0 < rig.sideSwitchSpeed) :
    ((update rig dt c).cameraHolderY =
      -(holderDistance rig +
        (min rig.intendedDistance c - holderDistance rig) *
          (rig.adjustmentSpeed * dt))) ∧
    (holderDistance rig ≠ min rig.intendedDistance c →
      |(-(update rig dt c).cameraHolderY) - min rig.intendedDistance c| >
        |holderDistance rig - min rig.intendedDistance c|) ∧
    (¬ |rig.shoulderSideDistance * rig.currentSide - rig.cameraBaseX| < 1 / 1000 →
      (update rig dt c).cameraBaseX =
        rig.cameraBaseX +
          (rig.shoulderSideDistance * rig.currentSide - rig.cameraBaseX) *
            (rig.sideSwitchSpeed * dt) ∧
      |(update rig dt c).cameraBaseX - rig.shoulderSideDistance * rig.currentSide| >
        |rig.cameraBaseX - rig.shoulderSideDistance * rig.currentSide|) ∧
    ((mkRig 0 5 0 0 1 1 0).intendedDistance <
      holderDistance
        (update { mkRig 0 5 0 0 1 1 0 with cameraHolderY := -4 } (-10) 5)) := by
  have hq : rig.adjustmentSpeed * dt < 0 := mul_neg_of_pos_of_neg hA hdt
  have hq2 : rig.sideSwitchSpeed * dt < 0 := mul_neg_of_pos_of_neg hS hdt
  have ha : (update rig dt c).cameraHolderY =
      -(holderDistance rig +
        (min rig.intendedDistance c - holderDistance rig) *
          (rig.adjustmentSpeed * dt)) := by
    rw [update_cameraHolderY, holderDistance,
      if_neg (not_lt.mpr (le_of_lt (lt_trans hq (by norm_num))))]
    ring
  refine ⟨ha, ?_, ?_, ?_⟩
  · intro hne
    have habs : 0 < |holderDistance rig - min rig.intendedDistance c| :=
      abs_pos.mpr (sub_ne_zero.mpr hne)
    rw [ha, neg_neg,
      show holderDistance rig +
          (min rig.intendedDistance c - holderDistance rig) *
            (rig.adjustmentSpeed * dt) -
          min rig.intendedDistance c =
        (holderDistance rig - min rig.intendedDistance c) *
          (1 - rig.adjustmentSpeed * dt) from by ring,
      abs_mul, abs_of_nonneg (by linarith : (0:ℚ) ≤ 1 - rig.adjustmentSpeed * dt)]
    nlinarith [mul_pos habs (by linarith : (0:ℚ) < -(rig.adjustmentSpeed * dt))]
  · intro hfar
    have hxeq : (update rig dt c).cameraBaseX =
        rig.cameraBaseX +
          (rig.shoulderSideDistance * rig.currentSide - rig.cameraBaseX) *
            (rig.sideSwitchSpeed * dt) := by
      rw [update_cameraBaseX, if_neg hfar,
        if_neg (not_lt.mpr (le_of_lt (lt_trans hq2 (by norm_num))))]
    have habs : 0 < |rig.cameraBaseX - rig.shoulderSideDistance * rig.currentSide| := by
      rw [abs_sub_comm]
      have h1 : (1 : ℚ) / 1000 ≤ |rig.shoulderSideDistance * rig.currentSide -
          rig.cameraBaseX| := not_lt.mp hfar
      linarith
    refine ⟨hxeq, ?_⟩
    rw [hxeq,
      show rig.cameraBaseX +
          (rig.shoulderSideDistance * rig.currentSide - rig.cameraBaseX) *
            (rig.sideSwitchSpeed * dt) -
          rig.shoulderSideDistance * rig.currentSide =
        (rig.cameraBaseX - rig.shoulderSideDistance * rig.currentSide) *
          (1 - rig.sideSwitchSpeed * dt) from by ring,
      abs_mul, abs_of_nonneg (by linarith : (0:ℚ) ≤ 1 - rig.sideSwitchSpeed * dt)]
    nlinarith [mul_pos habs (by linarith : (0:ℚ) < -(rig.sideSwitchSpeed * dt))]
  · show (5 : ℚ) < holderDistance
      (update { mkRig 0 5 0 0 1 1 0 with cameraHolderY := -4 } (-10) 5)
    rw [holderDistance, update_cameraHolderY]
    norm_num [mkRig]

/-- Witness for C10 at a concrete rig away from both targets,
dt = -10. -/
theorem negative_dt_moves_away_witness :
    ((update { mkRig 0 5 3 0 1 1 1 with cameraHolderY := -4 } (-10) 5).cameraHolderY =
      -(holderDistance { mkRig 0 5 3 0 1 1 1 with cameraHolderY := -4 } +
        (min { mkRig 0 5 3 0 1 1 1 with cameraHolderY := -4 }.intendedDistance 5 -
            holderDistance { mkRig 0 5 3 0 1 1 1 with cameraHolderY := -4 }) *
          ({ mkRig 0 5 3 0 1 1 1 with cameraHolderY := -4 }.adjustmentSpeed * (-10)))) ∧
    (holderDistance { mkRig 0 5 3 0 1 1 1 with cameraHolderY := -4 } ≠
        min { mkRig 0 5 3 0 1 1 1 with cameraHolderY := -4 }.intendedDistance 5 →
      |(-(update { mkRig 0 5 3 0 1 1 1 with cameraHolderY := -4 } (-10) 5).cameraHolderY) -
          min { mkRig 0 5 3 0 1 1 1 with cameraHolderY := -4 }.intendedDistance 5| >
        |holderDistance { mkRig 0 5 3 0 1 1 1 with cameraHolderY := -4 } -
          min { mkRig 0 5 3 0 1 1 1 with cameraHolderY := -4 }.intendedDistance 5|) ∧
    (¬ |{ mkRig 0 5 3 0 1 1 1 with cameraHolderY := -4 }.shoulderSideDistance *
          { mkRig 0 5 3 0 1 1 1 with cameraHolderY := -4 }.currentSide -
          { mkRig 0 5 3 0 1 1 1 with cameraHolderY := -4 }.cameraBaseX| < 1 / 1000 →
      (update { mkRig 0 5 3 0 1 1 1 with cameraHolderY := -4 } (-10) 5).cameraBaseX =
        { mkRig 0 5 3 0 1 1 1 with cameraHolderY := -4 }.cameraBaseX +
          ({ mkRig 0 5 3 0 1 1 1 with cameraHolderY := -4 }.shoulderSideDistance *
              { mkRig 0 5 3 0 1 1 1 with cameraHolderY := -4 }.currentSide -
            { mkRig 0 5 3 0 1 1 1 with cameraHolderY := -4 }.cameraBaseX) *
            ({ mkRig 0 5 3 0 1 1 1 with cameraHolderY := -4 }.sideSwitchSpeed * (-10)) ∧
      |(update { mkRig 0 5 3 0 1 1 1 with cameraHolderY := -4 } (-10) 5).cameraBaseX -
          { mkRig 0 5 3 0 1 1 1 with cameraHolderY := -4 }.shoulderSideDistance *
            { mkRig 0 5 3 0 1 1 1 with cameraHolderY := -4 }.currentSide| >
        |{ mkRig 0 5 3 0 1 1 1 with cameraHolderY := -4 }.cameraBaseX -
          { mkRig 0 5 3 0 1 1 1 with cameraHolderY := -4 }.shoulderSideDistance *
            { mkRig 0 5 3 0 1 1 1 with cameraHolderY := -4 }.currentSide|) ∧
    ((mkRig 0 5 0 0 1 1 0).intendedDistance <
      holderDistance
        (update { mkRig 0 5 0 0 1 1 0 with cameraHolderY := -4 } (-10) 5)) :=
  negative_dt_moves_away { mkRig 0 5 3 0 1 1 1 with cameraHolderY := -4 } (-10) 5
    (by norm_num) (by norm_num [mkRig]) (by norm_num [mkRig])

end STPC
